import Mathlib

/-!
Shallow embedding of the product/SKU/license/review service of the digizone
backend (ProductsService in the sampled source, plus the sendEmail mail
utility).  MongoDB documents are modelled as Lean structures, the document
store and the Stripe payment ledger as explicit state threaded through each
operation, and a thrown JS exception as the `Except.error` branch carrying
both the error and the store state at the moment of the throw (so that
"nothing was written" claims are expressible).

Identifiers (Mongo ObjectIds, Stripe ids) are modelled as strings; the JS
comparisons `value.customerId === user._id.toString()`, `sku._id == skuId`
and `comment._id.toString() !== reviewId` all reduce to string equality
under this model.
-/


/-- The error kinds a service call can surface.  `badRequestException`
corresponds to NestJS `BadRequestException` (the distinguished client-error
kind); `internalError` to a plain `throw new Error(...)`; `typeError` to a
JS runtime `TypeError` from dereferencing `null`/`undefined`; `upstreamError`
to a failure of an external (Stripe/HTTP) call propagated unchanged. -/
inductive ServiceError where
  | internalError (msg : String)
  | badRequestException (msg : String)
  | typeError (msg : String)
  | upstreamError (msg : String)
deriving Repr, DecidableEq

/-- An embedded Feedback sub-document of a product. -/
structure Feedback where
  _id : String
  rating : Int
  feedbackMsg : String
  customerId : String
  customerName : String
deriving Repr, DecidableEq

/-- An embedded SKU sub-document of a product. -/
structure Sku where
  _id : String
  skuName : String
  price : Int
  lifetime : Bool
  stripePriceId : Option String
  skuCode : String
deriving Repr, DecidableEq

/-- A product document. -/
structure Product where
  _id : String
  productName : String
  description : String
  category : String
  image : String
  stripeProductId : String
  avgRating : String
  skuDetails : List Sku
  feedbackDetails : List Feedback
deriving Repr, DecidableEq

/-- A license document (referencing a product and a SKU by id). -/
structure License where
  _id : String
  product : String
  productSku : String
  licenseKey : String
deriving Repr, DecidableEq

/-- An ordered-item entry of an order document. -/
structure OrderedItem where
  productId : String
deriving Repr, DecidableEq

/-- An order document, as consulted by the purchase check of
`addProductReview` (`{ customerId, 'orderedItems.productId' }`). -/
structure Order where
  _id : String
  customerId : String
  orderedItems : List OrderedItem
deriving Repr, DecidableEq

/-- The authenticated user object (`user._id`, `user.name` are the only
fields the service reads). -/
structure User where
  _id : String
  name : String
deriving Repr, DecidableEq

/-- Metadata attached to a Stripe price at creation. -/
structure PriceMetadata where
  skuCode : String
  lifetime : String
  productId : String
  price : Int
  productName : String
  productImage : String
deriving Repr, DecidableEq

/-- A Stripe price record in the payment ledger. -/
structure StripePrice where
  id : String
  unit_amount : Int
  currency : String
  product : String
  metadata : PriceMetadata
  active : Bool
deriving Repr, DecidableEq

/-- A Stripe product record in the payment ledger. -/
structure StripeProductRec where
  id : String
  name : String
  description : String
deriving Repr, DecidableEq

/-- The payment ledger (Stripe) state: product records, price records and a
counter supplying fresh price ids. -/
structure StripeLedger where
  products : List StripeProductRec
  prices : List StripePrice
  nextPriceId : Nat
deriving Repr, DecidableEq

/-- The whole observable state: the document store collections plus the
payment ledger. -/
structure State where
  products : List Product
  licenses : List License
  orders : List Order
  ledger : StripeLedger
deriving Repr, DecidableEq

/-- The price record a `stripeClient.prices.create` call appends to the
ledger: fresh id from the ledger's counter, active on creation. -/
def mintedPrice (l : StripeLedger) (amount : Int) (cur prod : String)
    (md : PriceMetadata) : StripePrice :=
  { id := "price_" ++ toString l.nextPriceId, unit_amount := amount,
    currency := cur, product := prod, metadata := md, active := true }

/-- `stripeClient.prices.create`: appends a fresh, active price record and
returns its id. -/
def stripeCreatePrice (l : StripeLedger) (amount : Int) (cur prod : String)
    (md : PriceMetadata) : StripeLedger × String :=
  ({ l with
      prices := l.prices ++ [mintedPrice l amount cur prod md],
      nextPriceId := l.nextPriceId + 1 },
   (mintedPrice l amount cur prod md).id)

/-- `productDB.findOne({_id: pid})`: the first product whose `_id` matches. -/
def findOneProduct (ps : List Product) (pid : String) : Option Product :=
  ps.find? (fun p => p._id == pid)

/-- `productDB.findOneAndUpdate({_id: pid}, u)`: apply the update to the
first matching document, leave the rest untouched. -/
def findOneAndUpdateProduct (ps : List Product) (pid : String)
    (f : Product → Product) : List Product :=
  match ps with
  | [] => []
  | p :: rest =>
      if p._id == pid then f p :: rest
      else p :: findOneAndUpdateProduct rest pid f

/-- `orderDB.findOne({customerId, 'orderedItems.productId': productId})`:
Mongo dotted-path array match — some ordered item carries the product id. -/
def findOneOrder (os : List Order) (customerId productId : String) :
    Option Order :=
  os.find? (fun o =>
    o.customerId == customerId &&
      o.orderedItems.any (fun it => it.productId == productId))

/-- JS `Number.prototype.toFixed(2)` on the nonnegative rationals arising
here (sums of integer ratings divided by a count): round to the nearest
hundredth, ties away from zero, and print with exactly two decimals.  The
double-precision evaluation in JS agrees with the exact rational value for
every such mean (the rational is never within double rounding error of a
two-decimal tie). -/
def toFixed2 (q : ℚ) : String :=
  let n : ℤ := Int.fdiv (200 * q.num + q.den) (2 * q.den)
  let ip := Int.fdiv n 100
  let fp := (Int.emod n 100).toNat
  toString ip ++ "." ++ (if fp < 10 then "0" ++ toString fp else toString fp)

/-- The arithmetic mean of a list of integer ratings, as an exact rational
(JS: `ratings.reduce((a, b) => a + b) / ratings.length`). -/
def ratingsMean (ratings : List Int) : ℚ :=
  Rat.divInt ratings.sum ratings.length

/-- The result of a service call: `Except.error (e, s)` models a thrown
exception `e` with the store/ledger state `s` as it stood at the throw. -/
abbrev ServiceResult := Except (ServiceError × State) State

/-- `ProductsService.addProductReview`.  The Mongo-generated `_id` of the
new feedback sub-document is passed in as `newFeedbackId`. -/
def addProductReview (s : State) (productId : String) (rating : Int)
    (review : String) (user : User) (newFeedbackId : String) : ServiceResult :=
  match findOneProduct s.products productId with
  | none => .error (.internalError "Product does not exist", s)
  | some product =>
    if (product.feedbackDetails.find?
          (fun v => v.customerId == user._id)).isSome then
      .error (.badRequestException
        "You have already gave the review for this product", s)
    else
      match findOneOrder s.orders user._id productId with
      | none => .error (.badRequestException
          "You have not purchased this product", s)
      | some _ =>
        let ratings : List Int := product.feedbackDetails.map (fun c => c.rating)
        let avgRating : String :=
          if ratings.length > 0 then
            toFixed2 (ratingsMean ratings)
          else
            toString rating
        let reviewDetails : Feedback :=
          { _id := newFeedbackId, rating := rating, feedbackMsg := review,
            customerId := user._id, customerName := user.name }
        .ok { s with
          products := findOneAndUpdateProduct s.products productId
            (fun p => { p with
              avgRating := avgRating,
              feedbackDetails := p.feedbackDetails ++ [reviewDetails] }) }

/-- `ProductsService.removeProductReview`. -/
def removeProductReview (s : State) (productId reviewId : String) :
    ServiceResult :=
  match findOneProduct s.products productId with
  | none => .error (.internalError "Product does not exist", s)
  | some product =>
    match product.feedbackDetails.find? (fun r => r._id == reviewId) with
    | none => .error (.internalError "Review does not exist", s)
    | some _ =>
      let ratings : List Int :=
        (product.feedbackDetails.filter
          (fun c => !(c._id == reviewId))).map (fun c => c.rating)
      let avgRating : String :=
        if ratings.length > 0 then
          toFixed2 (ratingsMean ratings)
        else "0"
      .ok { s with
        products := findOneAndUpdateProduct s.products productId
          (fun p => { p with
            avgRating := avgRating,
            feedbackDetails :=
              p.feedbackDetails.filter (fun f => !(f._id == reviewId)) }) }

/-- A SKU entry as supplied by the client (`ProductSkuDto`): `stripePriceId`
and `skuCode` are optional; when present in a patch they are applied like
any other field (the JS update loop iterates the keys present on the DTO). -/
structure ProductSkuDto where
  skuName : String
  price : Int
  lifetime : Bool
  stripePriceId : Option String
  skuCode : Option String
deriving Repr, DecidableEq

/-- The per-entry loop body of `updateProductSku`: walk the batch in order,
creating a ledger price (amount `price * 100`, currency `inr`, metadata
including the shared code and `lifetime + ''`) exactly for the entries that
carry no `stripePriceId`, storing the returned id on the entry, and stamping
the shared `skuCode` on every entry.  `freshIds i` is the Mongo-assigned
`_id` of the `i`-th stored sub-document. -/
def processSkuBatch (product : Product) (productId skuCode : String)
    (freshIds : Nat → String) :
    List ProductSkuDto → Nat → StripeLedger → StripeLedger × List Sku
  | [], _, ledger => (ledger, [])
  | dto :: rest, i, ledger =>
    let step : StripeLedger × String :=
      match dto.stripePriceId with
      | some pid => (ledger, pid)
      | none =>
          stripeCreatePrice ledger (dto.price * 100) "inr"
            product.stripeProductId
            { skuCode := skuCode, lifetime := toString dto.lifetime,
              productId := productId, price := dto.price,
              productName := product.productName,
              productImage := product.image }
    let sku : Sku :=
      { _id := freshIds i, skuName := dto.skuName, price := dto.price,
        lifetime := dto.lifetime, stripePriceId := some step.2,
        skuCode := skuCode }
    let restResult := processSkuBatch product productId skuCode freshIds
      rest (i + 1) step.1
    (restResult.1, sku :: restResult.2)

/-- `ProductsService.updateProductSku`.  The batch-shared `skuCode`
(`Math.random().toString(36).substring(2, 5) + Date.now()` in JS) and the
Mongo-assigned sub-document ids are passed in as parameters.  The final
store update is `$push: { skuDetails: data.skuDetails }`; per the spec this
appends the batch to the product's SKU collection. -/
def updateProductSku (s : State) (productId : String)
    (data : List ProductSkuDto) (skuCode : String) (freshIds : Nat → String) :
    ServiceResult :=
  match findOneProduct s.products productId with
  | none => .error (.internalError "Product does not exist", s)
  | some product =>
    let processed := processSkuBatch product productId skuCode freshIds
      data 0 s.ledger
    .ok { s with
      ledger := processed.1,
      products := findOneAndUpdateProduct s.products productId
        (fun p => { p with skuDetails := p.skuDetails ++ processed.2 }) }

/-- The positional `$set` of `updateProductSkuById`: every key present on
the DTO overwrites the corresponding field of the matched embedded SKU
(`dataForUpdate['skuDetails.$.' + key] = data[key]` for each own key). -/
def applySkuPatch (data : ProductSkuDto) (sku : Sku) : Sku :=
  { sku with
    skuName := data.skuName,
    price := data.price,
    lifetime := data.lifetime,
    stripePriceId :=
      match data.stripePriceId with
      | some pid => some pid
      | none => sku.stripePriceId,
    skuCode :=
      match data.skuCode with
      | some c => c
      | none => sku.skuCode }

/-- `findOneAndUpdate({_id, 'skuDetails._id': skuId}, {$set: positional})`:
in the first product matching both conditions, replace the first embedded
SKU whose `_id` matches. -/
def updateFirstMatchingSku (sks : List Sku) (skuId : String)
    (f : Sku → Sku) : List Sku :=
  match sks with
  | [] => []
  | sk :: rest =>
      if sk._id == skuId then f sk :: rest
      else sk :: updateFirstMatchingSku rest skuId f

/-- `ProductsService.updateProductSkuById`. -/
def updateProductSkuById (s : State) (productId skuId : String)
    (data : ProductSkuDto) : ServiceResult :=
  match findOneProduct s.products productId with
  | none => .error (.internalError "Product does not exist", s)
  | some product =>
    match product.skuDetails.find? (fun sk => sk._id == skuId) with
    | none => .error (.internalError "Sku does not exist", s)
    | some sku =>
      let minted : StripeLedger × ProductSkuDto :=
        if data.price != sku.price then
          let created := stripeCreatePrice s.ledger (data.price * 100) "inr"
            product.stripeProductId
            { skuCode := sku.skuCode, lifetime := toString data.lifetime,
              productId := productId, price := data.price,
              productName := product.productName,
              productImage := product.image }
          (created.1, { data with stripePriceId := some created.2 })
        else (s.ledger, data)
      .ok { s with
        ledger := minted.1,
        products := findOneAndUpdateProduct s.products productId
          (fun p => { p with
            skuDetails :=
              updateFirstMatchingSku p.skuDetails skuId
                (applySkuPatch minted.2) }) }

/-- `stripeClient.prices.update(pid, {active: false})`: marks the matching
price inactive; fails upstream when no such price exists. -/
def stripeDeactivatePrice (l : StripeLedger) (pid : String) :
    Except ServiceError StripeLedger :=
  if l.prices.any (fun p => p.id == pid) then
    .ok { l with
      prices := l.prices.map
        (fun p => if p.id == pid then { p with active := false } else p) }
  else .error (.upstreamError "No such price")

/-- Modelled from the spec: `productDB.deleteSku(id, skuId)` (the
ProductRepository method is not in the sampled sources) removes the SKU
sub-document with the given id from the given product. -/
def deleteSku (ps : List Product) (pid skuId : String) : List Product :=
  findOneAndUpdateProduct ps pid
    (fun p => { p with
      skuDetails := p.skuDetails.filter (fun sk => !(sk._id == skuId)) })

/-- Modelled from the spec: `productDB.deleteAllLicense(product?, skuId)`
(the ProductRepository method is not in the sampled sources) deletes every
License record whose `productSku` matches `skuId`; the `product` argument,
passed as `undefined` by `deleteProductSkuById`, then does not scope the
deletion, so the cascade runs across the whole license store. -/
def deleteAllLicense (ls : List License) (product : Option String)
    (skuId : String) : List License :=
  ls.filter (fun l =>
    !((match product with
       | some pid => l.product == pid
       | none => true) && l.productSku == skuId))

/-- `ProductsService.deleteProductSkuById`.  The JS body performs no
explicit existence checks: a missing product makes
`productDetails.skuDetails` throw a `TypeError`, and a missing SKU makes
`skuDetails.stripePriceId` throw a `TypeError`; both throws happen before
any external call or store write. -/
def deleteProductSkuById (s : State) (id skuId : String) : ServiceResult :=
  match findOneProduct s.products id with
  | none => .error
      (.typeError "Cannot read properties of null (reading skuDetails)", s)
  | some productDetails =>
    match productDetails.skuDetails.find? (fun sk => sk._id == skuId) with
    | none => .error
        (.typeError
          "Cannot read properties of undefined (reading stripePriceId)", s)
    | some skuDetails =>
      match skuDetails.stripePriceId with
      | none => .error (.upstreamError "No such price", s)
      | some pid =>
        match stripeDeactivatePrice s.ledger pid with
        | .error e => .error (e, s)
        | .ok ledger2 =>
          let s2 : State := { s with
            ledger := ledger2,
            products := deleteSku s.products id skuId }
          .ok { s2 with
            licenses := deleteAllLicense s2.licenses none skuId }

/-- The client input of `createProduct` (`CreateProductDto`); the ledger
reference `stripeProductId` is optional. -/
structure CreateProductDto where
  productName : String
  description : String
  category : String
  image : String
  stripeProductId : Option String
deriving Repr, DecidableEq

/-- The product document persisted by `productDB.create` from the DTO (after
the service has ensured `stripeProductId` is set). -/
def mkProduct (newId : String) (dto : CreateProductDto)
    (stripeProductId : String) : Product :=
  { _id := newId, productName := dto.productName,
    description := dto.description, category := dto.category,
    image := dto.image, stripeProductId := stripeProductId,
    avgRating := "0", skuDetails := [], feedbackDetails := [] }

/-- `ProductsService.createProduct`.  The outcome of the external
`stripeClient.products.create` HTTP call is supplied by the environment as
`ledgerResp` (a fresh ledger product id, or a failure); it is consulted only
when the DTO carries no ledger reference. -/
def createProduct (s : State) (dto : CreateProductDto)
    (ledgerResp : Except String String) (newId : String) : ServiceResult :=
  match dto.stripeProductId with
  | some spid =>
      .ok { s with products := s.products ++ [mkProduct newId dto spid] }
  | none =>
    match ledgerResp with
    | .error e => .error (.upstreamError e, s)
    | .ok spid =>
        .ok { s with
          ledger := { s.ledger with
            products := s.ledger.products ++
              [{ id := spid, name := dto.productName,
                 description := dto.description }] },
          products := s.products ++ [mkProduct newId dto spid] }

/-- The response object returned by the HTTP client on success. -/
structure AxiosResponse where
  status : Nat
  data : String
deriving Repr, DecidableEq

/-- The multipart form assembled by `sendEmail` before the HTTP call: the
fixed `to`/`template`/`subject`/`from` fields followed by one `v:`-prefixed
field per template variable. -/
def buildMailForm (toAddr templateName subject : String)
    (templateVars : List (String × String)) : List (String × String) :=
  [("to", toAddr), ("template", templateName), ("subject", subject),
   ("from", "mailgun@sandbox83baf4ab2ac84bfb8da56b81f1d076a5.mailgun.org")]
  ++ templateVars.map (fun kv => ("v:" ++ kv.1, kv.2))

/-- `sendEmail` from `src/shared/utility/mail-handler.ts`.  The HTTP call is
supplied by the environment as `axiosCall`; the whole body sits in a
`try`/`catch` whose handler only logs, so a failing call yields a normal
resolution with `undefined` (`none`) instead of a propagated error — the
return type has no error branch at all. -/
def sendEmail (toAddr templateName subject : String)
    (templateVars : List (String × String))
    (axiosCall : List (String × String) → Except String AxiosResponse) :
    Option AxiosResponse :=
  match axiosCall (buildMailForm toAddr templateName subject templateVars) with
  | .ok response => some response
  | .error _ => none

/-- The per-product review-uniqueness invariant: the customer ids of the
embedded Feedback entries are pairwise distinct (at most one Feedback per
distinct `customerId`). -/
def FeedbackPerCustomerUnique (p : Product) : Prop :=
  (p.feedbackDetails.map (fun f => f.customerId)).Nodup

/-- The store-wide review-uniqueness invariant. -/
def ReviewInvariant (s : State) : Prop :=
  ∀ p ∈ s.products, FeedbackPerCustomerUnique p

instance (p : Product) : Decidable (FeedbackPerCustomerUnique p) := by
  unfold FeedbackPerCustomerUnique; infer_instance

instance (s : State) : Decidable (ReviewInvariant s) := by
  unfold ReviewInvariant FeedbackPerCustomerUnique
  exact List.decidableBAll _ _

/-! Concrete fixtures used by counterexample and witness theorems. -/

/-- An empty payment ledger. -/
def ledger0 : StripeLedger := { products := [], prices := [], nextPriceId := 0 }

/-- Customer C1. -/
def userC1 : User := { _id := "C1", name := "Asha" }

/-- Customer C2. -/
def userC2 : User := { _id := "C2", name := "Birk" }

/-- Customer C3 (no order on record). -/
def userC3 : User := { _id := "C3", name := "Cleo" }

/-- Order O1: customer C1 bought product P1. -/
def orderO1 : Order :=
  { _id := "O1", customerId := "C1", orderedItems := [{ productId := "P1" }] }

/-- Order O2: customer C2 bought product P1. -/
def orderO2 : Order :=
  { _id := "O2", customerId := "C2", orderedItems := [{ productId := "P1" }] }

/-- Product P1 with no feedback yet. -/
def productP1 : Product :=
  { _id := "P1", productName := "Antivirus", description := "desc",
    category := "security", image := "img", stripeProductId := "sprod_1",
    avgRating := "0", skuDetails := [], feedbackDetails := [] }

/-- Baseline state: P1 with zero feedback, orders O1 and O2 on record. -/
def state0 : State :=
  { products := [productP1], licenses := [], orders := [orderO1, orderO2],
    ledger := ledger0 }

/-- Feedback F1: rating 4 by customer C1. -/
def feedbackF1 : Feedback :=
  { _id := "F1", rating := 4, feedbackMsg := "great", customerId := "C1",
    customerName := "Asha" }

/-- State where P1 already carries C1's rating-4 review. -/
def state1 : State :=
  { state0 with
    products := [{ productP1 with
      avgRating := "4", feedbackDetails := [feedbackF1] }] }

/-- The avgRating of the given product after a service call, `none` if the
call failed or the product is absent. -/
def reviewAvgAfter (r : ServiceResult) (pid : String) : Option String :=
  match r with
  | .ok s => (findOneProduct s.products pid).map Product.avgRating
  | .error _ => none

/-- First step of the spec scenario: C1 reviews P1 with rating 4. -/
def c1Step1 : ServiceResult := addProductReview state0 "P1" 4 "great" userC1 "F1"

/-- Second step: C2 reviews P1 with rating 2, on the state left by step 1. -/
def c1Step2 : ServiceResult :=
  addProductReview (c1Step1.toOption.getD state0) "P1" 2 "meh" userC2 "F2"

/-- The state after C1's first accepted review of P1 (used to witness
invariant preservation on a concrete successful call). -/
def c2OkState : State :=
  (addProductReview state0 "P1" 4 "great" userC1 "F1").toOption.getD state0

/-- The per-document effect claimed for a review removal: pull the entry
with the given id and set `avgRating` to the 2-decimal mean of the remaining
ratings, `"0"` when none remain. -/
def pulledWithRecomputedAvg (reviewId : String) (p : Product) : Product :=
  let remaining := p.feedbackDetails.filter (fun c => !(c._id == reviewId))
  { p with
    feedbackDetails := remaining,
    avgRating :=
      if 0 < remaining.length then
        toFixed2 (ratingsMean (remaining.map (fun c => c.rating)))
      else "0" }

/-- The state holding both scenario reviews (rating 4 by C1, rating 2 by
C2), as left by the embedded add operation. -/
def c4TwoReviewState : State := c1Step2.toOption.getD state0

/-- A SKU S1 of product P2, already carrying the ledger price `price_0`. -/
def sku1 : Sku :=
  { _id := "S1", skuName := "basic", price := 10, lifetime := false,
    stripePriceId := some "price_0", skuCode := "abc1700000000000" }

/-- Product P2 holding the single SKU S1. -/
def productP2 : Product :=
  { _id := "P2", productName := "Editor", description := "d2",
    category := "tools", image := "img2", stripeProductId := "sprod_2",
    avgRating := "0", skuDetails := [sku1], feedbackDetails := [] }

/-- The ledger price backing S1. -/
def price0 : StripePrice :=
  { id := "price_0", unit_amount := 1000, currency := "inr",
    product := "sprod_2",
    metadata := { skuCode := "abc1700000000000", lifetime := "false",
                  productId := "P2", price := 10, productName := "Editor",
                  productImage := "img2" },
    active := true }

/-- License L1: product P2, SKU S1. -/
def licL1 : License :=
  { _id := "L1", product := "P2", productSku := "S1", licenseKey := "K1" }

/-- License L2: a different product P3 but the same SKU identifier S1 —
caught by the unscoped cascade. -/
def licL2 : License :=
  { _id := "L2", product := "P3", productSku := "S1", licenseKey := "K2" }

/-- License L3: product P2 but another SKU identifier S2 — survives. -/
def licL3 : License :=
  { _id := "L3", product := "P2", productSku := "S2", licenseKey := "K3" }

/-- A state exercising the SKU-deletion cascade. -/
def skuState : State :=
  { products := [productP2], licenses := [licL1, licL2, licL3], orders := [],
    ledger := { products := [{ id := "sprod_2", name := "Editor",
                               description := "d2" }],
                prices := [price0], nextPriceId := 1 } }

/-- What the claim asserts of each stored batch entry, relative to the batch
input entry and the ledger left by the whole call: the shared code is
stamped on; an entry that already carried a ledger price reference keeps it;
an entry that lacked one now refers to a ledger price created with amount
`price * 100` minor units and the batch metadata. -/
def SkuEntrySpec (skuCode productId : String) (product : Product)
    (finalLedger : StripeLedger) (d : ProductSkuDto) (sk : Sku) : Prop :=
  sk.skuCode = skuCode ∧
  sk.skuName = d.skuName ∧ sk.price = d.price ∧ sk.lifetime = d.lifetime ∧
  (∀ x, d.stripePriceId = some x → sk.stripePriceId = some x) ∧
  (d.stripePriceId = none → ∃ pid, sk.stripePriceId = some pid ∧
    ∃ pr ∈ finalLedger.prices, pr.id = pid ∧
      pr.unit_amount = d.price * 100 ∧ pr.currency = "inr" ∧
      pr.product = product.stripeProductId ∧
      pr.metadata.skuCode = skuCode ∧
      pr.metadata.lifetime = toString d.lifetime ∧
      pr.metadata.productId = productId ∧
      pr.metadata.price = d.price ∧
      pr.active = true)

/-- A batch entry that already carries a ledger price reference. -/
def dtoA : ProductSkuDto :=
  { skuName := "pro", price := 20, lifetime := true,
    stripePriceId := some "price_keep", skuCode := none }

/-- A batch entry lacking a ledger price reference. -/
def dtoB : ProductSkuDto :=
  { skuName := "lite", price := 5, lifetime := false,
    stripePriceId := none, skuCode := none }

/-- A state whose product P2 already holds one SKU, against an empty
ledger. -/
def batchState : State :=
  { products := [productP2], licenses := [], orders := [], ledger := ledger0 }

/-- A patch for S1 with a changed price (15 instead of 10). -/
def dtoPriceChange : ProductSkuDto :=
  { skuName := "basic", price := 15, lifetime := false,
    stripePriceId := none, skuCode := none }

/-- A patch for S1 with the price unchanged. -/
def dtoSamePrice : ProductSkuDto :=
  { skuName := "basic plus", price := 10, lifetime := false,
    stripePriceId := none, skuCode := none }

/-- Claim C1: the claim states that `addProductReview` sets `avgRating` to
the 2-decimal mean of the existing ratings plus the new one ("4.00" after a
first rating-4 review, "3.00" after a further rating-2 review).  Evaluating
the embedded code on exactly that scenario: the first accepted review stores
`String(rating) = "4"` (no 2-decimal formatting), and the second stores
`"4.00"` — the mean of the ratings present *before* the insert, the new
rating never being pushed into the averaged list — not `"3.00"`.  The code
contradicts the claim (and its own remove-path convention, which averages
the current entries). -/
theorem addProductReview_uses_stale_average :
    (c1Step1.toOption.isSome = true) ∧
    reviewAvgAfter c1Step1 "P1" = some "4" ∧
    (c1Step2.toOption.isSome = true) ∧
    reviewAvgAfter c1Step2 "P1" = some "4.00" ∧
    ("4" ≠ "4.00") ∧ ("4.00" ≠ "3.00") := by decide

/-- Claim C10: `sendEmail` never throws — whatever the HTTP call does, the
function resolves normally: with `undefined` (`none`) when the call fails
(the error is swallowed by the catch), and with the response when it
succeeds. -/
theorem sendEmail_never_throws (toAddr templateName subject : String)
    (templateVars : List (String × String))
    (axiosCall : List (String × String) → Except String AxiosResponse) :
    (∀ e, axiosCall (buildMailForm toAddr templateName subject templateVars) =
        .error e →
      sendEmail toAddr templateName subject templateVars axiosCall = none) ∧
    (∀ r, axiosCall (buildMailForm toAddr templateName subject templateVars) =
        .ok r →
      sendEmail toAddr templateName subject templateVars axiosCall = some r) := by
  constructor <;> intro x h <;> simp [sendEmail, h]

/-- Witness for the `sendEmail` theorem at a concrete failing call and a
concrete succeeding call. -/
theorem sendEmail_never_throws_witness :
    sendEmail "a@b.c" "welcome" "hi" [("name", "Asha")]
      (fun _ => .error "connect ECONNREFUSED") = none ∧
    sendEmail "a@b.c" "welcome" "hi" [("name", "Asha")]
      (fun _ => .ok { status := 200, data := "queued" }) =
      some { status := 200, data := "queued" } :=
  ⟨(sendEmail_never_throws "a@b.c" "welcome" "hi" [("name", "Asha")]
      (fun _ => .error "connect ECONNREFUSED")).1 "connect ECONNREFUSED" rfl,
   (sendEmail_never_throws "a@b.c" "welcome" "hi" [("name", "Asha")]
      (fun _ => .ok { status := 200, data := "queued" })).2
      { status := 200, data := "queued" } rfl⟩

/-- Claim C8: `createProduct` creates the ledger record from
name+description and stores the returned reference before persisting the
local Product; on ledger failure nothing local is written; when the input
already carries a reference no ledger record is created. -/
theorem createProduct_ledger_sync (s : State) (dto : CreateProductDto)
    (ledgerResp : Except String String) (newId : String) :
    (dto.stripeProductId = none → ∀ e, ledgerResp = .error e →
      createProduct s dto ledgerResp newId = .error (.upstreamError e, s)) ∧
    (dto.stripeProductId = none → ∀ spid, ledgerResp = .ok spid →
      createProduct s dto ledgerResp newId = .ok
        { s with
          ledger := { s.ledger with
            products := s.ledger.products ++
              [{ id := spid, name := dto.productName,
                 description := dto.description }] },
          products := s.products ++ [mkProduct newId dto spid] }) ∧
    (∀ spid, dto.stripeProductId = some spid →
      createProduct s dto ledgerResp newId =
        .ok { s with products := s.products ++ [mkProduct newId dto spid] }) := by
  refine ⟨fun h e he => ?_, fun h spid hs => ?_, fun spid h => ?_⟩
  · simp [createProduct, h, he]
  · simp [createProduct, h, hs]
  · simp [createProduct, h]

/-- Witness for `createProduct_ledger_sync`: a DTO without a ledger
reference against a failing ledger (state untouched), the same DTO against a
succeeding ledger, and a DTO that already carries a reference (ledger
untouched). -/
theorem createProduct_ledger_sync_witness :
    createProduct state0
      { productName := "N", description := "D", category := "c",
        image := "i", stripeProductId := none }
      (.error "ledger down") "P9" =
      .error (.upstreamError "ledger down", state0) ∧
    createProduct state0
      { productName := "N", description := "D", category := "c",
        image := "i", stripeProductId := none }
      (.ok "sprod_9") "P9" =
      .ok { state0 with
        ledger := { state0.ledger with
          products := state0.ledger.products ++
            [{ id := "sprod_9", name := "N", description := "D" }] },
        products := state0.products ++
          [mkProduct "P9"
            { productName := "N", description := "D", category := "c",
              image := "i", stripeProductId := none } "sprod_9"] } ∧
    createProduct state0
      { productName := "N", description := "D", category := "c",
        image := "i", stripeProductId := some "sprod_7" }
      (.ok "unused") "P9" =
      .ok { state0 with
        products := state0.products ++
          [mkProduct "P9"
            { productName := "N", description := "D", category := "c",
              image := "i", stripeProductId := some "sprod_7" } "sprod_7"] } :=
  ⟨(createProduct_ledger_sync state0
      { productName := "N", description := "D", category := "c",
        image := "i", stripeProductId := none }
      (.error "ledger down") "P9").1 rfl "ledger down" rfl,
   (createProduct_ledger_sync state0
      { productName := "N", description := "D", category := "c",
        image := "i", stripeProductId := none }
      (.ok "sprod_9") "P9").2.1 rfl "sprod_9" rfl,
   (createProduct_ledger_sync state0
      { productName := "N", description := "D", category := "c",
        image := "i", stripeProductId := some "sprod_7" }
      (.ok "unused") "P9").2.2 "sprod_7" rfl⟩

/-- Claim C9: `deleteProductSkuById` fails whenever the product or the SKU
is absent — the JS body dereferences the missing value and throws a
`TypeError` before issuing the ledger deactivation, the SKU removal or the
license deletion, so the error carries the store state unchanged. -/
theorem deleteProductSkuById_absent_fails (s : State) (id skuId : String) :
    (findOneProduct s.products id = none →
      ∃ msg, deleteProductSkuById s id skuId = .error (.typeError msg, s)) ∧
    (∀ product, findOneProduct s.products id = some product →
      product.skuDetails.find? (fun sk => sk._id == skuId) = none →
      ∃ msg, deleteProductSkuById s id skuId = .error (.typeError msg, s)) := by
  refine ⟨fun h => ?_, fun product hp hsk => ?_⟩
  · exact ⟨"Cannot read properties of null (reading skuDetails)",
      by simp [deleteProductSkuById, h]⟩
  · exact ⟨"Cannot read properties of undefined (reading stripePriceId)",
      by simp [deleteProductSkuById, hp, hsk]⟩

/-- Witness for `deleteProductSkuById_absent_fails`: an absent product id
and an absent SKU id on the concrete baseline state. -/
theorem deleteProductSkuById_absent_fails_witness :
    (∃ msg, deleteProductSkuById state0 "P404" "S1" =
      .error (.typeError msg, state0)) ∧
    (∃ msg, deleteProductSkuById state0 "P1" "S404" =
      .error (.typeError msg, state0)) :=
  ⟨(deleteProductSkuById_absent_fails state0 "P404" "S1").1 rfl,
   (deleteProductSkuById_absent_fails state0 "P1" "S404").2 productP1 rfl rfl⟩

/-- Claim C3: with the product present, a reviewer with no Order linking
them to the product is rejected with the distinguished client-error kind
(`BadRequestException`), the store state — in particular the product's
Feedback collection and `avgRating` — unchanged: the throw precedes the
store update. -/
theorem addProductReview_requires_purchase (s : State) (productId : String)
    (rating : Int) (review : String) (user : User) (newFeedbackId : String)
    (product : Product)
    (hfind : findOneProduct s.products productId = some product)
    (horder : findOneOrder s.orders user._id productId = none) :
    ∃ msg, addProductReview s productId rating review user newFeedbackId =
      .error (.badRequestException msg, s) := by
  by_cases hdup : (product.feedbackDetails.find?
      (fun v => v.customerId == user._id)).isSome
  · exact ⟨"You have already gave the review for this product",
      by simp [addProductReview, hfind, hdup]⟩
  · exact ⟨"You have not purchased this product",
      by simp [addProductReview, hfind, hdup, horder]⟩

/-- Witness for `addProductReview_requires_purchase`: customer C3 has no
order for P1. -/
theorem addProductReview_requires_purchase_witness :
    ∃ msg, addProductReview state0 "P1" 3 "nice" userC3 "F5" =
      .error (.badRequestException msg, state0) :=
  addProductReview_requires_purchase state0 "P1" 3 "nice" userC3 "F5"
    productP1 rfl rfl

/-- Every element of `findOneAndUpdateProduct ps pid f` is either an
untouched element of `ps` or the image under `f` of the document the update
matched (the first one `findOne` would return). -/
theorem mem_findOneAndUpdateProduct {ps : List Product} {pid : String}
    {f : Product → Product} {q : Product}
    (hq : q ∈ findOneAndUpdateProduct ps pid f) :
    q ∈ ps ∨ ∃ p, findOneProduct ps pid = some p ∧ q = f p := by
  induction ps with
  | nil => simp [findOneAndUpdateProduct] at hq
  | cons p rest ih =>
    by_cases h : p._id == pid
    · simp only [findOneAndUpdateProduct, h, if_pos] at hq
      rcases List.mem_cons.mp hq with rfl | hq2
      · exact Or.inr ⟨p, by simp [findOneProduct, List.find?_cons, h], rfl⟩
      · exact Or.inl (List.mem_cons_of_mem _ hq2)
    · simp only [findOneAndUpdateProduct, h, if_neg, Bool.false_eq_true,
        not_false_iff] at hq
      rcases List.mem_cons.mp hq with rfl | hq2
      · exact Or.inl (List.mem_cons_self _ _)
      · rcases ih hq2 with h1 | ⟨p2, hp2, rfl⟩
        · exact Or.inl (List.mem_cons_of_mem _ h1)
        · refine Or.inr ⟨p2, ?_, rfl⟩
          simpa [findOneProduct, List.find?_cons, h] using hp2

/-- Claim C2: a reviewer who already has a Feedback entry on the product is
rejected with the distinguished client error (`BadRequestException`) and
nothing is written; consequently the per-product uniqueness invariant — at
most one Feedback per distinct `customerId` — is preserved by every
successful `addProductReview`. -/
theorem addProductReview_duplicate_rejected (s : State) (productId : String)
    (rating : Int) (review : String) (user : User) (newFeedbackId : String) :
    (∀ product, findOneProduct s.products productId = some product →
      (∃ f ∈ product.feedbackDetails, f.customerId = user._id) →
      addProductReview s productId rating review user newFeedbackId =
        .error (.badRequestException
          "You have already gave the review for this product", s)) ∧
    (ReviewInvariant s →
      ∀ s2, addProductReview s productId rating review user newFeedbackId =
        .ok s2 → ReviewInvariant s2) := by
  constructor
  · intro product hfind hdup
    have hsome : (product.feedbackDetails.find?
        (fun v => v.customerId == user._id)).isSome := by
      rw [List.find?_isSome]
      obtain ⟨f, hf, he⟩ := hdup
      exact ⟨f, hf, by simp [he]⟩
    simp [addProductReview, hfind, hsome]
  · intro hinv s2 hok
    unfold addProductReview at hok
    cases hfind : findOneProduct s.products productId with
    | none => rw [hfind] at hok; simp at hok
    | some product =>
      rw [hfind] at hok
      by_cases hdup : (product.feedbackDetails.find?
          (fun v => v.customerId == user._id)).isSome
      · simp [hdup] at hok
      · cases horder : findOneOrder s.orders user._id productId with
        | none => simp [hdup, horder] at hok
        | some o =>
          simp only [hdup, horder, Bool.false_eq_true, if_neg,
            not_false_iff, Except.ok.injEq] at hok
          subst hok
          intro p hp
          simp only at hp
          rcases mem_findOneAndUpdateProduct hp with hmem | ⟨p0, hp0, rfl⟩
          · exact hinv p hmem
          · rw [hfind] at hp0
            injection hp0 with h0
            subst h0
            have hnone : product.feedbackDetails.find?
                (fun v => v.customerId == user._id) = none :=
              Option.not_isSome_iff_eq_none.mp hdup
            have hnotin : user._id ∉ product.feedbackDetails.map
                (fun f => f.customerId) := by
              intro hmem
              obtain ⟨f, hf, hfe⟩ := List.mem_map.mp hmem
              have hne := (List.find?_eq_none.mp hnone) f hf
              simp [hfe] at hne
            unfold FeedbackPerCustomerUnique
            simp only [List.map_append, List.map_cons, List.map_nil]
            rw [List.nodup_append]
            refine ⟨hinv product (List.mem_of_find?_eq_some hfind),
              List.nodup_singleton _, ?_⟩
            intro a ha hb
            rw [List.mem_singleton] at hb
            subst hb
            exact hnotin ha

/-- Witness for `addProductReview_duplicate_rejected`: C1 reviewing P1 a
second time is rejected with the duplicate-review client error and the state
is unchanged, and a concrete successful review preserves the uniqueness
invariant. -/
theorem addProductReview_duplicate_rejected_witness :
    addProductReview state1 "P1" 5 "again" userC1 "F9" =
      .error (.badRequestException
        "You have already gave the review for this product", state1) ∧
    ReviewInvariant c2OkState :=
  ⟨(addProductReview_duplicate_rejected state1 "P1" 5 "again" userC1 "F9").1
      { productP1 with avgRating := "4", feedbackDetails := [feedbackF1] } rfl
      ⟨feedbackF1, by simp, rfl⟩,
   (addProductReview_duplicate_rejected state0 "P1" 4 "great" userC1 "F1").2
      (by decide) c2OkState (by rfl)⟩

/-- Two updates agree on `findOneAndUpdateProduct` as soon as they agree on
the document the update matches. -/
theorem findOneAndUpdateProduct_congr {ps : List Product} {pid : String}
    {f g : Product → Product} {q : Product}
    (hq : findOneProduct ps pid = some q) (hfg : f q = g q) :
    findOneAndUpdateProduct ps pid f = findOneAndUpdateProduct ps pid g := by
  induction ps with
  | nil => rfl
  | cons p rest ih =>
    by_cases h : p._id == pid
    · have hpq : p = q := by
        simpa [findOneProduct, List.find?_cons, h] using hq
      subst hpq
      simp [findOneAndUpdateProduct, h, hfg]
    · have hq2 : findOneProduct rest pid = some q := by
        simpa [findOneProduct, List.find?_cons, h] using hq
      simp [findOneAndUpdateProduct, h, ih hq2]

/-- Claim C4: `removeProductReview` fails (state unchanged) when the product
is absent or the review id is not among the current Feedback; otherwise it
issues one combined store update that pulls the entry and sets `avgRating`
to the 2-decimal mean of the remaining ratings, or to `"0"` when none
remain; nothing outside that one product document changes. -/
theorem removeProductReview_spec (s : State) (productId reviewId : String) :
    (findOneProduct s.products productId = none →
      removeProductReview s productId reviewId =
        .error (.internalError "Product does not exist", s)) ∧
    (∀ product, findOneProduct s.products productId = some product →
      product.feedbackDetails.find? (fun r => r._id == reviewId) = none →
      removeProductReview s productId reviewId =
        .error (.internalError "Review does not exist", s)) ∧
    (∀ product, findOneProduct s.products productId = some product →
      (product.feedbackDetails.find? (fun r => r._id == reviewId)).isSome →
      removeProductReview s productId reviewId = .ok
        { s with
          products := findOneAndUpdateProduct s.products productId
            (pulledWithRecomputedAvg reviewId) }) := by
  refine ⟨fun h => ?_, fun product hp hr => ?_, fun product hp hr => ?_⟩
  · simp [removeProductReview, h]
  · simp [removeProductReview, hp, hr]
  · rw [Option.isSome_iff_exists] at hr
    obtain ⟨rv, hrv⟩ := hr
    have hcongr := findOneAndUpdateProduct_congr
      (f := fun p => { p with
        avgRating :=
          if ((product.feedbackDetails.filter
              (fun c => !(c._id == reviewId))).map (fun c => c.rating)).length
              > 0 then
            toFixed2 (ratingsMean ((product.feedbackDetails.filter
              (fun c => !(c._id == reviewId))).map (fun c => c.rating)))
          else "0",
        feedbackDetails := p.feedbackDetails.filter
          (fun f => !(f._id == reviewId)) })
      (g := pulledWithRecomputedAvg reviewId)
      hp (by simp [pulledWithRecomputedAvg, List.length_map])
    simp only [removeProductReview, hp, hrv]
    rw [hcongr]

/-- Witness for `removeProductReview_spec`: absent product, absent review,
and a successful removal on concrete states; removing C1's rating-4 review
from the two-review state leaves `avgRating = "2.00"` (the mean of the
remaining rating-2 entry), as the claim states. -/
theorem removeProductReview_spec_witness :
    removeProductReview state1 "P404" "F1" =
      .error (.internalError "Product does not exist", state1) ∧
    removeProductReview state1 "P1" "F404" =
      .error (.internalError "Review does not exist", state1) ∧
    removeProductReview state1 "P1" "F1" = .ok
      { state1 with
        products := findOneAndUpdateProduct state1.products "P1"
          (pulledWithRecomputedAvg "F1") } ∧
    reviewAvgAfter (removeProductReview c4TwoReviewState "P1" "F1") "P1" =
      some "2.00" ∧
    reviewAvgAfter (removeProductReview state1 "P1" "F1") "P1" = some "0" :=
  ⟨(removeProductReview_spec state1 "P404" "F1").1 rfl,
   (removeProductReview_spec state1 "P1" "F404").2.1 _ rfl rfl,
   (removeProductReview_spec state1 "P1" "F1").2.2 _ rfl rfl,
   by decide, by decide⟩

/-- Claim C5: deleting a SKU deactivates (does not delete) its ledger
price, removes the SKU sub-document from the product, and deletes every
License whose SKU reference matches the given SKU id across the entire
license store — the product argument of the cascade is `undefined`, so the
deletion is not scoped to the product.  Orders are untouched. -/
theorem deleteProductSkuById_cascade (s : State) (id skuId : String)
    (product : Product) (sku : Sku) (pid : String)
    (hp : findOneProduct s.products id = some product)
    (hsku : product.skuDetails.find? (fun sk => sk._id == skuId) = some sku)
    (hpid : sku.stripePriceId = some pid)
    (hledger : s.ledger.prices.any (fun p => p.id == pid)) :
    ∃ s2, deleteProductSkuById s id skuId = .ok s2 ∧
      s2.ledger.prices = s.ledger.prices.map
        (fun p => if p.id == pid then { p with active := false } else p) ∧
      s2.ledger.prices.length = s.ledger.prices.length ∧
      s2.products = findOneAndUpdateProduct s.products id
        (fun p => { p with
          skuDetails := p.skuDetails.filter (fun sk => !(sk._id == skuId)) }) ∧
      s2.licenses = s.licenses.filter (fun l => !(l.productSku == skuId)) ∧
      s2.orders = s.orders := by
  have hdeact : stripeDeactivatePrice s.ledger pid = .ok { s.ledger with
      prices := s.ledger.prices.map
        (fun p => if p.id == pid then { p with active := false } else p) } := by
    simp [stripeDeactivatePrice, hledger]
  refine ⟨{ s with
      ledger := { s.ledger with
        prices := s.ledger.prices.map (fun p =>
          if p.id == pid then { p with active := false } else p) },
      products := deleteSku s.products id skuId,
      licenses := deleteAllLicense s.licenses none skuId },
    ?_, rfl, by simp, rfl, ?_, rfl⟩
  · simp only [deleteProductSkuById, hp, hsku, hpid, hdeact]
  · simp [deleteAllLicense]

/-- Witness for `deleteProductSkuById_cascade` on `skuState`: the cascade
removes L2 as well (same SKU id under a different product) while keeping
L3, and `price_0` stays in the ledger, merely inactive. -/
theorem deleteProductSkuById_cascade_witness :
    (∃ s2, deleteProductSkuById skuState "P2" "S1" = .ok s2 ∧
      s2.ledger.prices = skuState.ledger.prices.map
        (fun p => if p.id == "price_0" then { p with active := false } else p) ∧
      s2.ledger.prices.length = skuState.ledger.prices.length ∧
      s2.products = findOneAndUpdateProduct skuState.products "P2"
        (fun p => { p with
          skuDetails := p.skuDetails.filter (fun sk => !(sk._id == "S1")) }) ∧
      s2.licenses = skuState.licenses.filter
        (fun l => !(l.productSku == "S1")) ∧
      s2.orders = skuState.orders) ∧
    (deleteProductSkuById skuState "P2" "S1").toOption.map State.licenses =
      some [licL3] ∧
    (deleteProductSkuById skuState "P2" "S1").toOption.map
        (fun s2 => s2.ledger.prices) = some [{ price0 with active := false }] :=
  ⟨deleteProductSkuById_cascade skuState "P2" "S1" productP2 sku1 "price_0"
      rfl rfl rfl rfl,
   by decide, by decide⟩

/-- The batch loop stores exactly one SKU per input entry. -/
theorem processSkuBatch_length (product : Product) (productId skuCode : String)
    (freshIds : Nat → String) (data : List ProductSkuDto) :
    ∀ (i : Nat) (ledger : StripeLedger),
      (processSkuBatch product productId skuCode freshIds
        data i ledger).2.length = data.length := by
  induction data with
  | nil => intro i ledger; rfl
  | cons dto rest ih =>
    intro i ledger
    simp only [processSkuBatch, List.length_cons, ih]

/-- The batch loop only appends to the ledger's price list, and appends one
price per entry lacking a ledger reference. -/
theorem processSkuBatch_prices (product : Product) (productId skuCode : String)
    (freshIds : Nat → String) (data : List ProductSkuDto) :
    ∀ (i : Nat) (ledger : StripeLedger),
      ∃ newPrices : List StripePrice,
        (processSkuBatch product productId skuCode freshIds
          data i ledger).1.prices = ledger.prices ++ newPrices ∧
        newPrices.length =
          (data.filter (fun d => d.stripePriceId == none)).length := by
  induction data with
  | nil => intro i ledger; exact ⟨[], by simp [processSkuBatch], by simp⟩
  | cons dto rest ih =>
    intro i ledger
    cases hd : dto.stripePriceId with
    | some pid =>
      obtain ⟨nps, h1, h2⟩ := ih (i + 1) ledger
      refine ⟨nps, ?_, ?_⟩
      · simp only [processSkuBatch, hd]
        exact h1
      · simp [List.filter_cons, hd, h2]
    | none =>
      obtain ⟨nps, h1, h2⟩ := ih (i + 1)
        (stripeCreatePrice ledger (dto.price * 100) "inr"
          product.stripeProductId
          { skuCode := skuCode, lifetime := toString dto.lifetime,
            productId := productId, price := dto.price,
            productName := product.productName,
            productImage := product.image }).1
      refine ⟨mintedPrice ledger (dto.price * 100) "inr"
          product.stripeProductId
          { skuCode := skuCode, lifetime := toString dto.lifetime,
            productId := productId, price := dto.price,
            productName := product.productName,
            productImage := product.image } :: nps, ?_, ?_⟩
      · simp only [processSkuBatch, hd]
        rw [h1]
        simp [stripeCreatePrice]
      · simp [List.filter_cons, hd, h2]

/-- Every SKU stored by the batch loop carries the shared batch code. -/
theorem processSkuBatch_skuCode (product : Product)
    (productId skuCode : String) (freshIds : Nat → String)
    (data : List ProductSkuDto) :
    ∀ (i : Nat) (ledger : StripeLedger),
      ∀ sk ∈ (processSkuBatch product productId skuCode freshIds
        data i ledger).2, sk.skuCode = skuCode := by
  induction data with
  | nil => intro i ledger sk hsk; simp [processSkuBatch] at hsk
  | cons dto rest ih =>
    intro i ledger sk hsk
    simp only [processSkuBatch, List.mem_cons] at hsk
    rcases hsk with rfl | hsk
    · rfl
    · exact ih (i + 1) _ sk hsk

/-- The stored batch entries satisfy `SkuEntrySpec` pointwise against the
input entries and the final ledger. -/
theorem processSkuBatch_entries (product : Product)
    (productId skuCode : String) (freshIds : Nat → String)
    (data : List ProductSkuDto) :
    ∀ (i : Nat) (ledger : StripeLedger),
      List.Forall₂
        (SkuEntrySpec skuCode productId product
          (processSkuBatch product productId skuCode freshIds data i ledger).1)
        data
        (processSkuBatch product productId skuCode freshIds data i ledger).2 := by
  induction data with
  | nil => intro i ledger; exact List.Forall₂.nil
  | cons dto rest ih =>
    intro i ledger
    cases hd : dto.stripePriceId with
    | some pid =>
      simp only [processSkuBatch, hd]
      refine List.Forall₂.cons ?_ (ih (i + 1) ledger)
      refine ⟨rfl, rfl, rfl, rfl, fun x hx => ?_, fun hn => ?_⟩
      · rw [hd] at hx
        injection hx with hx2
        rw [hx2]
      · rw [hd] at hn; cases hn
    | none =>
      simp only [processSkuBatch, hd]
      set md : PriceMetadata :=
        { skuCode := skuCode, lifetime := toString dto.lifetime,
          productId := productId, price := dto.price,
          productName := product.productName,
          productImage := product.image } with hmd
      refine List.Forall₂.cons ?_ (ih (i + 1) _)
      refine ⟨rfl, rfl, rfl, rfl, fun x hx => ?_, fun _ => ?_⟩
      · rw [hd] at hx; cases hx
      · refine ⟨(mintedPrice ledger (dto.price * 100) "inr"
            product.stripeProductId md).id, rfl, ?_⟩
        obtain ⟨nps, h1, _⟩ := processSkuBatch_prices product productId
          skuCode freshIds rest (i + 1)
          (stripeCreatePrice ledger (dto.price * 100) "inr"
            product.stripeProductId md).1
        refine ⟨mintedPrice ledger (dto.price * 100) "inr"
            product.stripeProductId md, ?_, rfl, rfl, rfl, rfl, rfl, rfl,
            rfl, rfl, rfl⟩
        rw [h1]
        simp [stripeCreatePrice]

/-- Claim C6: on an existing product, `updateProductSku` stamps the one
shared `skuCode` on every entry of the batch, creates a ledger price
(amount = price × 100 minor units) exactly for the entries lacking a ledger
reference — storing the returned id on the entry — and appends the batch to
the product's existing SKU collection rather than replacing it. -/
theorem updateProductSku_batch_spec (s : State) (productId : String)
    (data : List ProductSkuDto) (skuCode : String) (freshIds : Nat → String)
    (product : Product)
    (hp : findOneProduct s.products productId = some product) :
    ∃ s2 newSkus,
      updateProductSku s productId data skuCode freshIds = .ok s2 ∧
      s2.products = findOneAndUpdateProduct s.products productId
        (fun p => { p with skuDetails := p.skuDetails ++ newSkus }) ∧
      newSkus.length = data.length ∧
      (∀ sk ∈ newSkus, sk.skuCode = skuCode) ∧
      (∃ newPrices, s2.ledger.prices = s.ledger.prices ++ newPrices ∧
        newPrices.length =
          (data.filter (fun d => d.stripePriceId == none)).length) ∧
      List.Forall₂ (SkuEntrySpec skuCode productId product s2.ledger)
        data newSkus := by
  refine ⟨{ s with
      ledger := (processSkuBatch product productId skuCode freshIds
        data 0 s.ledger).1,
      products := findOneAndUpdateProduct s.products productId
        (fun p => { p with
          skuDetails := p.skuDetails ++
            (processSkuBatch product productId skuCode freshIds
              data 0 s.ledger).2 }) },
    (processSkuBatch product productId skuCode freshIds data 0 s.ledger).2,
    ?_, rfl,
    processSkuBatch_length product productId skuCode freshIds data 0 s.ledger,
    processSkuBatch_skuCode product productId skuCode freshIds data 0 s.ledger,
    processSkuBatch_prices product productId skuCode freshIds data 0 s.ledger,
    processSkuBatch_entries product productId skuCode freshIds data 0
      s.ledger⟩
  simp only [updateProductSku, hp]

/-- Witness for `updateProductSku_batch_spec` on a concrete 2-entry batch:
both stored entries get the shared code `code99`; only the entry lacking a
reference gets a freshly created price (`price_0`, 500 minor units); the
batch lands appended after the existing SKU. -/
theorem updateProductSku_batch_spec_witness :
    (∃ s2 newSkus,
      updateProductSku batchState "P2" [dtoA, dtoB] "code99"
        (fun i => "NS" ++ toString i) = .ok s2 ∧
      s2.products = findOneAndUpdateProduct batchState.products "P2"
        (fun p => { p with skuDetails := p.skuDetails ++ newSkus }) ∧
      newSkus.length = ([dtoA, dtoB] : List ProductSkuDto).length ∧
      (∀ sk ∈ newSkus, sk.skuCode = "code99") ∧
      (∃ newPrices, s2.ledger.prices = batchState.ledger.prices ++ newPrices ∧
        newPrices.length =
          (([dtoA, dtoB] : List ProductSkuDto).filter
            (fun d => d.stripePriceId == none)).length) ∧
      List.Forall₂ (SkuEntrySpec "code99" "P2" productP2 s2.ledger)
        [dtoA, dtoB] newSkus) ∧
    (updateProductSku batchState "P2" [dtoA, dtoB] "code99"
        (fun i => "NS" ++ toString i)).toOption.map
      (fun s2 => (findOneProduct s2.products "P2").map Product.skuDetails) =
      some (some [sku1,
        { _id := "NS0", skuName := "pro", price := 20, lifetime := true,
          stripePriceId := some "price_keep", skuCode := "code99" },
        { _id := "NS1", skuName := "lite", price := 5, lifetime := false,
          stripePriceId := some "price_0", skuCode := "code99" }]) :=
  ⟨updateProductSku_batch_spec batchState "P2" [dtoA, dtoB] "code99"
      (fun i => "NS" ++ toString i) productP2 rfl,
   by decide⟩

/-- Claim C7: on an existing product and SKU, a patch whose price differs
from the SKU's current price mints one new ledger price (reusing the
existing SKU's `skuCode` in its metadata), stores its id in the patch and
leaves every prior ledger price record untouched (in particular the old,
still-active reference); a patch with an equal price mints nothing and, when
it carries no explicit `stripePriceId`, leaves the SKU's reference as it
was; the patch fields are applied to the matching embedded SKU via the
positional update. -/
theorem updateProductSkuById_price_spec (s : State) (productId skuId : String)
    (data : ProductSkuDto) (product : Product) (sku : Sku)
    (hp : findOneProduct s.products productId = some product)
    (hsku : product.skuDetails.find? (fun sk => sk._id == skuId) = some sku) :
    (data.price ≠ sku.price →
      ∃ s2 pr,
        updateProductSkuById s productId skuId data = .ok s2 ∧
        s2.ledger.prices = s.ledger.prices ++ [pr] ∧
        pr.unit_amount = data.price * 100 ∧ pr.currency = "inr" ∧
        pr.product = product.stripeProductId ∧
        pr.metadata.skuCode = sku.skuCode ∧
        pr.metadata.lifetime = toString data.lifetime ∧
        pr.metadata.productId = productId ∧
        pr.metadata.price = data.price ∧
        pr.active = true ∧
        (∀ q ∈ s.ledger.prices, q ∈ s2.ledger.prices) ∧
        s2.products = findOneAndUpdateProduct s.products productId
          (fun p => { p with
            skuDetails := updateFirstMatchingSku p.skuDetails skuId
              (applySkuPatch { data with stripePriceId := some pr.id }) }) ∧
        (applySkuPatch { data with stripePriceId := some pr.id }
          sku).stripePriceId = some pr.id) ∧
    (data.price = sku.price →
      ∃ s2,
        updateProductSkuById s productId skuId data = .ok s2 ∧
        s2.ledger = s.ledger ∧
        s2.products = findOneAndUpdateProduct s.products productId
          (fun p => { p with
            skuDetails := updateFirstMatchingSku p.skuDetails skuId
              (applySkuPatch data) }) ∧
        (data.stripePriceId = none →
          (applySkuPatch data sku).stripePriceId = sku.stripePriceId)) := by
  constructor
  · intro hne
    refine ⟨{ s with
        ledger := (stripeCreatePrice s.ledger (data.price * 100) "inr"
          product.stripeProductId
          { skuCode := sku.skuCode, lifetime := toString data.lifetime,
            productId := productId, price := data.price,
            productName := product.productName,
            productImage := product.image }).1,
        products := findOneAndUpdateProduct s.products productId
          (fun p => { p with
            skuDetails := updateFirstMatchingSku p.skuDetails skuId
              (applySkuPatch { data with
                stripePriceId := some (mintedPrice s.ledger
                  (data.price * 100) "inr" product.stripeProductId
                  { skuCode := sku.skuCode,
                    lifetime := toString data.lifetime,
                    productId := productId, price := data.price,
                    productName := product.productName,
                    productImage := product.image }).id }) }) },
      mintedPrice s.ledger (data.price * 100) "inr" product.stripeProductId
        { skuCode := sku.skuCode, lifetime := toString data.lifetime,
          productId := productId, price := data.price,
          productName := product.productName, productImage := product.image },
      ?_, by simp [stripeCreatePrice], rfl, rfl, rfl, rfl, rfl, rfl, rfl, rfl,
      ?_, rfl, rfl⟩
    · simp [updateProductSkuById, hp, hsku, hne, stripeCreatePrice]
    · intro q hq
      simp only [stripeCreatePrice, List.mem_append]
      exact Or.inl hq
  · intro heq
    refine ⟨{ s with
        products := findOneAndUpdateProduct s.products productId
          (fun p => { p with
            skuDetails := updateFirstMatchingSku p.skuDetails skuId
              (applySkuPatch data) }) }, ?_, rfl, rfl, fun hn => ?_⟩
    · simp [updateProductSkuById, hp, hsku, heq]
    · simp [applySkuPatch, hn]

/-- Witness for `updateProductSkuById_price_spec` on `skuState`: the
changed-price patch mints `price_1` while `price_0` stays present and
active and the SKU now references `price_1`; the equal-price patch leaves
the ledger identical and the SKU still referencing `price_0`. -/
theorem updateProductSkuById_price_spec_witness :
    (∃ s2 pr,
      updateProductSkuById skuState "P2" "S1" dtoPriceChange = .ok s2 ∧
      s2.ledger.prices = skuState.ledger.prices ++ [pr] ∧
      pr.unit_amount = dtoPriceChange.price * 100 ∧ pr.currency = "inr" ∧
      pr.product = productP2.stripeProductId ∧
      pr.metadata.skuCode = sku1.skuCode ∧
      pr.metadata.lifetime = toString dtoPriceChange.lifetime ∧
      pr.metadata.productId = "P2" ∧
      pr.metadata.price = dtoPriceChange.price ∧
      pr.active = true ∧
      (∀ q ∈ skuState.ledger.prices, q ∈ s2.ledger.prices) ∧
      s2.products = findOneAndUpdateProduct skuState.products "P2"
        (fun p => { p with
          skuDetails := updateFirstMatchingSku p.skuDetails "S1"
            (applySkuPatch { dtoPriceChange with
              stripePriceId := some pr.id }) }) ∧
      (applySkuPatch { dtoPriceChange with stripePriceId := some pr.id }
        sku1).stripePriceId = some pr.id) ∧
    (∃ s2,
      updateProductSkuById skuState "P2" "S1" dtoSamePrice = .ok s2 ∧
      s2.ledger = skuState.ledger ∧
      s2.products = findOneAndUpdateProduct skuState.products "P2"
        (fun p => { p with
          skuDetails := updateFirstMatchingSku p.skuDetails "S1"
            (applySkuPatch dtoSamePrice) }) ∧
      (dtoSamePrice.stripePriceId = none →
        (applySkuPatch dtoSamePrice sku1).stripePriceId =
          sku1.stripePriceId)) ∧
    (updateProductSkuById skuState "P2" "S1" dtoPriceChange).toOption.map
      (fun s2 => s2.ledger.prices.map (fun p => (p.id, p.active))) =
      some [("price_0", true), ("price_1", true)] ∧
    (updateProductSkuById skuState "P2" "S1" dtoPriceChange).toOption.map
      (fun s2 => (findOneProduct s2.products "P2").map
        (fun p => p.skuDetails.map (fun sk => sk.stripePriceId))) =
      some (some [some "price_1"]) ∧
    (updateProductSkuById skuState "P2" "S1" dtoSamePrice).toOption.map
      (fun s2 => (findOneProduct s2.products "P2").map
        (fun p => p.skuDetails.map (fun sk => sk.stripePriceId))) =
      some (some [some "price_0"]) :=
  ⟨(updateProductSkuById_price_spec skuState "P2" "S1" dtoPriceChange
      productP2 sku1 rfl rfl).1 (by decide),
   (updateProductSkuById_price_spec skuState "P2" "S1" dtoSamePrice
      productP2 sku1 rfl rfl).2 rfl,
   by decide, by decide, by decide⟩
